import Mathlib

/-!
Verification of the Zephyr HAF flow-sensor driver (`zephyr/zephyr.py`).

Modelling choices for the shallow embedding:
* Python floats are modelled as exact rationals (`ℚ`); every numeric
  literal of the source (0.5, 0.4, 273.15, 1023.38, ...) is an exact
  rational literal.
* Python true division `/` raises `ZeroDivisionError` on a zero
  denominator; it is modelled by `pyDiv`, returning `Except`.  Where the
  source divides by a nonzero literal constant (16384, 0.4, the validated
  full-scale rating) plain rational division is used, since that division
  can never raise.
* Python `int(x)` truncates toward zero; modelled by `pyTrunc`.
* The I2C bus (the external `smbus2` collaborator) is modelled as a
  stream `bus : ℕ → ℕ × ℕ` of 2-byte blocks returned by successive
  `read_i2c_block_data` transactions, together with a transaction
  counter threaded through the driver operations.  The counter's final
  value minus its initial value is the number of scoped bus transactions
  performed.  `sleep` has no observable effect in this model.
* Exceptions are modelled with `Except`; a raised exception leaves the
  driver state as it was at the raise point (Python objects keep their
  fields when an exception propagates out of a method).
-/

namespace ZephyrHAF

/-- Source: `SUPPORTED_FLOW_RANGE = [50.0, 100.0, 200.0, 400.0, 750.0]` from zephyr.py. -/
def SUPPORTED_FLOW_RANGE : List ℚ := [50, 100, 200, 400, 750]

/-- Source: `SUPPORTED_SENSOR_ADDRESS = [0x49, 0x59, 0x69, 0x79]` from zephyr.py. -/
def SUPPORTED_SENSOR_ADDRESS : List ℤ := [0x49, 0x59, 0x69, 0x79]

/-- The `SensorNotSupported` exception.  Its message is built from the
rejected flow range and address and the two global supported sets; the
structure carries exactly those four ingredients. -/
structure SensorNotSupported where
  flow_range : ℚ
  sensor_address : ℤ
  supported_flow_range : List ℚ
  supported_address : List ℤ
  deriving DecidableEq, Repr

/-- Source: `SensorNotSupported.__init__(flow_range, sensor_address)`: the message
interpolates the two arguments and the two module-level supported sets. -/
def SensorNotSupported.make (flow_range : ℚ) (sensor_address : ℤ) : SensorNotSupported :=
  { flow_range := flow_range
    sensor_address := sensor_address
    supported_flow_range := SUPPORTED_FLOW_RANGE
    supported_address := SUPPORTED_SENSOR_ADDRESS }

/-- Runtime errors a driver operation can raise: the `InvalidSensorData`
exception (carrying the raw value and the `max_retry` count, which the
source always passes as its default 1), and Python's `ZeroDivisionError`. -/
inductive PyErr where
  | invalidSensorData (data : ℕ) (max_retry : ℕ)
  | zeroDivisionError
  deriving DecidableEq, Repr

/-- Python true division: raises `ZeroDivisionError` on a zero denominator. -/
def pyDiv (a b : ℚ) : Except PyErr ℚ :=
  if b = 0 then .error .zeroDivisionError else .ok (a / b)

/-- Python `int(x)` on a float: truncation toward zero. -/
def pyTrunc (q : ℚ) : ℤ :=
  if 0 ≤ q then ⌊q⌋ else ⌈q⌉

/-- Source: `STANDARD_TEMPERATURE = 273.15  # K` -/
def STANDARD_TEMPERATURE : ℚ := 273.15

/-- Source: `STANDARD_PRESSURE = 1023.38  # hPa` -/
def STANDARD_PRESSURE : ℚ := 1023.38

/-- Source: `c_to_kelvin(temp_c)`: `273.15 + temp_c`. -/
def c_to_kelvin (temp_c : ℚ) : ℚ := 273.15 + temp_c

/-- Source: `compensated_reading(flow_at_stp, temperature, pressure)`:
`flow_at_stp * (STANDARD_PRESSURE * temperature) / (pressure * STANDARD_TEMPERATURE)`.
The division is Python `/`, so a zero denominator raises. -/
def compensated_reading (flow_at_stp temperature pressure : ℚ) : Except PyErr ℚ :=
  pyDiv (flow_at_stp * (STANDARD_PRESSURE * temperature)) (pressure * STANDARD_TEMPERATURE)

/-- The driver state: the fields assigned by `Zephyr.__init__`. -/
structure Zephyr where
  smbus_ch : ℤ
  FS_flow_rate : ℚ
  sensor_address : ℤ
  last_flow_rate : ℚ
  sensor_update_period : ℚ
  deriving DecidableEq, Repr

/-- Source: `Zephyr.__init__(flow_range, sensor_address, smbus_ch)`: membership
validation against the two supported sets, then field initialisation.
(`_initialize_sensor` only performs two discarded byte reads and sleeps;
it changes no driver state and is not needed by any claim.) -/
def Zephyr.init (flow_range : ℚ) (sensor_address : ℤ) (smbus_ch : ℤ) :
    Except SensorNotSupported Zephyr :=
  if flow_range ∉ SUPPORTED_FLOW_RANGE ∨ sensor_address ∉ SUPPORTED_SENSOR_ADDRESS then
    .error (SensorNotSupported.make flow_range sensor_address)
  else
    .ok { smbus_ch := smbus_ch
          FS_flow_rate := flow_range
          sensor_address := sensor_address
          last_flow_rate := 0
          sensor_update_period := 1 / 1000 }

/-- Source: `Zephyr._convert_to_digital_output(flow_rate)`:
`int(16384 * (0.5 + 0.4 * (flow_rate / self._FS_flow_rate)))`.
(The full-scale rating was validated at construction, hence nonzero.) -/
def Zephyr.convert_to_digital_output (z : Zephyr) (flow_rate : ℚ) : ℤ :=
  pyTrunc (16384 * (0.5 + 0.4 * (flow_rate / z.FS_flow_rate)))

/-- Source: `Zephyr._convert_to_flow_rate(digital_output)`:
`self._FS_flow_rate * ((digital_output/16384) - 0.5) / 0.4`. -/
def Zephyr.convert_to_flow_rate (z : Zephyr) (digital_output : ℤ) : ℚ :=
  z.FS_flow_rate * ((digital_output / 16384 : ℚ) - 0.5) / 0.4

/-- Source: `Zephyr._validate_data(data)`: false when `data & 0xc000 != 0`. -/
def Zephyr.validate_data (data : ℕ) : Bool :=
  if data &&& 0xc000 ≠ 0 then false else true

/-- Source: `Zephyr._read_digital_output()`: one scoped block-read transaction,
big-endian combination `raw_data_block[0] << 8 | raw_data_block[1]`,
validation, and `raise InvalidSensorData(digital_output)` on failure.
Returns the result together with the advanced transaction counter. -/
def Zephyr.read_digital_output (bus : ℕ → ℕ × ℕ) (i : ℕ) : Except PyErr ℕ × ℕ :=
  let raw_data_block := bus i
  let digital_output := raw_data_block.1 <<< 8 ||| raw_data_block.2
  if Zephyr.validate_data digital_output then
    (.ok digital_output, i + 1)
  else
    (.error (.invalidSensorData digital_output 1), i + 1)

/-- Source: `Zephyr.read()`: convert the digital output and store it in
`self._last_flow_rate`; on `InvalidSensorData` the exception propagates
before the assignment, so the state is returned unchanged. -/
def Zephyr.read (z : Zephyr) (bus : ℕ → ℕ × ℕ) (i : ℕ) :
    Except PyErr ℚ × Zephyr × ℕ :=
  match Zephyr.read_digital_output bus i with
  | (.error e, j) => (.error e, z, j)
  | (.ok d, j) =>
      let flow_rate := z.convert_to_flow_rate (d : ℤ)
      (.ok flow_rate, { z with last_flow_rate := flow_rate }, j)

/-- The `for i in range(n)` loop body of `read_average`: append
`self.read()` to `data`, sleeping between samples.  Returns the collected
list (or the first propagated exception), the final driver state and the
final transaction counter. -/
def Zephyr.read_loop (z : Zephyr) (bus : ℕ → ℕ × ℕ) (i : ℕ) :
    ℕ → Except PyErr (List ℚ) × Zephyr × ℕ
  | 0 => (.ok [], z, i)
  | n + 1 =>
      match z.read bus i with
      | (.error e, z1, j) => (.error e, z1, j)
      | (.ok f, z1, j) =>
          match Zephyr.read_loop z1 bus j n with
          | (.error e, z2, k) => (.error e, z2, k)
          | (.ok fs, z2, k) => (.ok (f :: fs), z2, k)

/-- Source: `Zephyr.read_average(n)`: collect `n` reads then `sum(data) / n`
(Python `/`, so `n = 0` divides zero by zero and raises). -/
def Zephyr.read_average (z : Zephyr) (bus : ℕ → ℕ × ℕ) (i : ℕ) (n : ℕ) :
    Except PyErr ℚ × Zephyr × ℕ :=
  match Zephyr.read_loop z bus i n with
  | (.error e, z1, j) => (.error e, z1, j)
  | (.ok data, z1, j) =>
      match pyDiv data.sum (n : ℚ) with
      | .error e => (.error e, z1, j)
      | .ok avg => (.ok avg, z1, j)

/-! ## Theorems -/

lemma validate_data_eq_true_iff (d : ℕ) :
    Zephyr.validate_data d = true ↔ d &&& 0xc000 = 0 := by
  simp [Zephyr.validate_data]

/-- C1: For every 2-byte block `(b0, b1)` returned by the bus read whose
big-endian combination `raw = b0 <<< 8 ||| b1` has both status bits
(bits 15 and 14) equal to zero, `read()` returns
`full_scale_flow * ((raw / 16384) - 0.5) / 0.4`; in particular, for any
configured full scale, `raw = 8192` decodes to exactly `0.0` SCCM. -/
theorem read_decodes_valid_raw (z : Zephyr) (bus : ℕ → ℕ × ℕ) (i : ℕ) :
    (((bus i).1 <<< 8 ||| (bus i).2) &&& 0xc000 = 0 →
      (z.read bus i).1 =
        .ok (z.FS_flow_rate * ((((bus i).1 <<< 8 ||| (bus i).2 : ℕ) : ℚ) / 16384 - 0.5) / 0.4)) ∧
    ((bus i).1 <<< 8 ||| (bus i).2 = 8192 →
      (z.read bus i).1 = .ok 0) := by
  constructor
  · intro h
    simp [Zephyr.read, Zephyr.read_digital_output, Zephyr.validate_data, h,
      Zephyr.convert_to_flow_rate]
  · intro h
    have hv : (8192 : ℕ) &&& 49152 = 0 := by decide
    simp [Zephyr.read, Zephyr.read_digital_output, Zephyr.validate_data, h, hv,
      Zephyr.convert_to_flow_rate]
    norm_num

/-- Witness for C1 at full scale 750, bus constantly answering `(0x20, 0x00)`
(raw value `0x2000 = 8192`): `read()` returns exactly `0`. -/
theorem read_decodes_valid_raw_witness :
    ((Zephyr.mk 1 750 0x49 0 (1 / 1000)).read (fun _ => (0x20, 0x00)) 0).1 = .ok 0 :=
  (read_decodes_valid_raw (Zephyr.mk 1 750 0x49 0 (1 / 1000)) (fun _ => (0x20, 0x00)) 0).2
    (by decide)

/-- C2: `read()` fails with `InvalidSensorData` carrying the raw 16-bit
value if and only if at least one of the two most-significant bits
(mask `0xC000`) of the big-endian-decoded raw value is set. -/
theorem read_invalid_iff (z : Zephyr) (bus : ℕ → ℕ × ℕ) (i : ℕ) :
    (z.read bus i).1 =
        .error (.invalidSensorData ((bus i).1 <<< 8 ||| (bus i).2) 1) ↔
      ((bus i).1 <<< 8 ||| (bus i).2) &&& 0xc000 ≠ 0 := by
  by_cases h : ((bus i).1 <<< 8 ||| (bus i).2) &&& 0xc000 = 0
  · simp [Zephyr.read, Zephyr.read_digital_output, Zephyr.validate_data, h]
  · simp [Zephyr.read, Zephyr.read_digital_output, Zephyr.validate_data, h]

/-- Witness for C2: raw `0x8000` makes `read()` fail with
`InvalidSensorData` carrying `0x8000`. -/
theorem read_invalid_iff_witness :
    ((Zephyr.mk 1 750 0x49 0 (1 / 1000)).read (fun _ => (0x80, 0x00)) 0).1 =
      .error (.invalidSensorData 0x8000 1) :=
  (read_invalid_iff (Zephyr.mk 1 750 0x49 0 (1 / 1000)) (fun _ => (0x80, 0x00)) 0).mpr
    (by decide)

/-- C9: for every `flow_at_stp` and `temperature`, calling
`compensated_reading` with `pressure = 0` hits an unguarded division by
zero: the denominator `pressure * STANDARD_TEMPERATURE` is zero and the
division raises, with no validation or special case. -/
theorem compensated_reading_zero_pressure (flow_at_stp temperature : ℚ) :
    compensated_reading flow_at_stp temperature 0 = .error .zeroDivisionError := by
  simp [compensated_reading, pyDiv]

/-- C10: `read_average(0)` performs zero bus reads (the transaction counter
is returned unchanged) and fails with a division-by-zero error (the sum of
an empty list divided by 0), not with a domain error or a returned value. -/
theorem read_average_zero_samples (z : Zephyr) (bus : ℕ → ℕ × ℕ) (i : ℕ) :
    z.read_average bus i 0 = (.error .zeroDivisionError, z, i) := by
  simp [Zephyr.read_average, Zephyr.read_loop, pyDiv]

/-- C3: construction fails with `SensorNotSupported` iff the flow range is
not in `{50, 100, 200, 400, 750}` or the address is not in
`{0x49, 0x59, 0x69, 0x79}`; the error carries the rejected flow range and
address together with both full supported sets; construction with
`flow_range = 750`, `address = 0x49` succeeds and construction with
`flow_range = 500` fails. -/
theorem init_validates_configuration (fr : ℚ) (a ch : ℤ) :
    (Zephyr.init fr a ch =
        .error { flow_range := fr, sensor_address := a,
                 supported_flow_range := SUPPORTED_FLOW_RANGE,
                 supported_address := SUPPORTED_SENSOR_ADDRESS } ↔
      (fr ∉ SUPPORTED_FLOW_RANGE ∨ a ∉ SUPPORTED_SENSOR_ADDRESS)) ∧
    (Zephyr.init 750 0x49 1).isOk = true ∧
    Zephyr.init 500 0x49 1 =
      .error { flow_range := 500, sensor_address := 0x49,
               supported_flow_range := SUPPORTED_FLOW_RANGE,
               supported_address := SUPPORTED_SENSOR_ADDRESS } := by
  refine ⟨?_, ?_, ?_⟩
  · by_cases h : fr ∉ SUPPORTED_FLOW_RANGE ∨ a ∉ SUPPORTED_SENSOR_ADDRESS
    · simp [Zephyr.init, h, SensorNotSupported.make]
    · simp [Zephyr.init, h, SensorNotSupported.make]
  · have h : ¬ ((750 : ℚ) ∉ SUPPORTED_FLOW_RANGE ∨ (0x49 : ℤ) ∉ SUPPORTED_SENSOR_ADDRESS) := by
      simp [SUPPORTED_FLOW_RANGE, SUPPORTED_SENSOR_ADDRESS]
    simp [Zephyr.init, h, Except.isOk, Except.toBool]
  · have h : (500 : ℚ) ∉ SUPPORTED_FLOW_RANGE ∨ (0x49 : ℤ) ∉ SUPPORTED_SENSOR_ADDRESS := by
      left
      simp [SUPPORTED_FLOW_RANGE]
    simp [Zephyr.init, h, SensorNotSupported.make]

/-- Witness for C3: the rejection of `flow_range = 500` at address `0x49`. -/
theorem init_validates_configuration_witness :
    Zephyr.init 500 0x49 1 =
      .error { flow_range := 500, sensor_address := 0x49,
               supported_flow_range := SUPPORTED_FLOW_RANGE,
               supported_address := SUPPORTED_SENSOR_ADDRESS } :=
  (init_validates_configuration 500 0x49 1).2.2

/-- Closed form of `compensated_reading` at nonzero pressure. -/
lemma compensated_reading_eq (f t p : ℚ) (hp : p ≠ 0) :
    compensated_reading f t p = .ok (f * (1023.38 * t) / (p * 273.15)) := by
  have hden : p * (273.15 : ℚ) ≠ 0 := mul_ne_zero hp (by norm_num)
  simp only [compensated_reading, STANDARD_PRESSURE, STANDARD_TEMPERATURE, pyDiv,
    if_neg hden]

/-- C5: for every `flow_at_stp`, `temperature_k`, `pressure_hpa` with
`pressure_hpa ≠ 0`, `compensated_reading` returns
`flow_at_stp * (1023.38 * temperature_k) / (pressure_hpa * 273.15)`;
it is linear in the flow argument and in the temperature argument and
inversely proportional to the pressure argument, and at
`temperature_k = 273.15`, `pressure_hpa = 1023.38` the output equals the
input flow exactly. -/
theorem compensated_reading_spec (f t p c f2 t2 : ℚ) (hp : p ≠ 0) :
    compensated_reading f t p = .ok (f * (1023.38 * t) / (p * 273.15)) ∧
    compensated_reading (c * f + f2) t p =
      .ok (c * (f * (1023.38 * t) / (p * 273.15)) + f2 * (1023.38 * t) / (p * 273.15)) ∧
    compensated_reading f (c * t + t2) p =
      .ok (c * (f * (1023.38 * t) / (p * 273.15)) + f * (1023.38 * t2) / (p * 273.15)) ∧
    (c ≠ 0 → compensated_reading f t (c * p) =
      .ok (f * (1023.38 * t) / (p * 273.15) / c)) ∧
    compensated_reading f 273.15 1023.38 = .ok f := by
  have hden : p * (273.15 : ℚ) ≠ 0 := mul_ne_zero hp (by norm_num)
  refine ⟨compensated_reading_eq f t p hp, ?_, ?_, ?_, ?_⟩
  · rw [compensated_reading_eq _ _ _ hp]
    congr 1
    field_simp
    ring
  · rw [compensated_reading_eq _ _ _ hp]
    congr 1
    field_simp
    ring
  · intro hc
    rw [compensated_reading_eq _ _ _ (mul_ne_zero hc hp)]
    congr 1
    rw [div_div]
    congr 1
    ring
  · rw [compensated_reading_eq _ _ _ (by norm_num : (1023.38 : ℚ) ≠ 0)]
    congr 1
    field_simp

/-- Witness for C5: at 5 SCCM, standard temperature and standard pressure,
the compensated reading is exactly the input flow. -/
theorem compensated_reading_spec_witness :
    compensated_reading 5 273.15 1023.38 = .ok 5 :=
  (compensated_reading_spec 5 273.15 1023.38 0 0 0 (by norm_num)).2.2.2.2

/-- C8: every successful `read()` sets `_last_flow_rate` to exactly the
flow value it returns (all other fields unchanged), and every `read()`
failing with `InvalidSensorData` leaves the driver state unchanged. -/
theorem read_updates_last_flow_rate (z : Zephyr) (bus : ℕ → ℕ × ℕ) (i : ℕ) :
    (∀ f, (z.read bus i).1 = .ok f →
      (z.read bus i).2.1 = { z with last_flow_rate := f }) ∧
    (∀ e, (z.read bus i).1 = .error e → (z.read bus i).2.1 = z) := by
  cases hb : Zephyr.validate_data ((bus i).1 <<< 8 ||| (bus i).2) with
  | false =>
      constructor
      · intro f hf
        simp [Zephyr.read, Zephyr.read_digital_output, hb] at hf
      · intro e he
        simp [Zephyr.read, Zephyr.read_digital_output, hb]
  | true =>
      constructor
      · intro f hf
        simp [Zephyr.read, Zephyr.read_digital_output, hb] at hf ⊢
        rw [hf]
      · intro e he
        simp [Zephyr.read, Zephyr.read_digital_output, hb] at he

/-- Witness for C8: on a valid constant bus the state after `read()` has
the returned flow cached; on an invalid bus the state is unchanged. -/
theorem read_updates_last_flow_rate_witness :
    ((Zephyr.mk 1 750 0x49 0 (1 / 1000)).read (fun _ => (0x20, 0x00)) 0).2.1 =
        { Zephyr.mk 1 750 0x49 0 (1 / 1000) with
            last_flow_rate := (Zephyr.mk 1 750 0x49 0 (1 / 1000)).convert_to_flow_rate 8192 } ∧
    ((Zephyr.mk 1 750 0x49 0 (1 / 1000)).read (fun _ => (0x80, 0x00)) 0).2.1 =
      Zephyr.mk 1 750 0x49 0 (1 / 1000) :=
  ⟨(read_updates_last_flow_rate (Zephyr.mk 1 750 0x49 0 (1 / 1000)) (fun _ => (0x20, 0x00)) 0).1
      ((Zephyr.mk 1 750 0x49 0 (1 / 1000)).convert_to_flow_rate 8192) rfl,
   (read_updates_last_flow_rate (Zephyr.mk 1 750 0x49 0 (1 / 1000)) (fun _ => (0x80, 0x00)) 0).2
      (.invalidSensorData 0x8000 1) rfl⟩

/-- Truncation toward zero moves a rational by less than one. -/
lemma pyTrunc_sub_le (q : ℚ) : |((pyTrunc q : ℤ) : ℚ) - q| ≤ 1 := by
  rw [abs_le, pyTrunc]
  by_cases h : 0 ≤ q
  · rw [if_pos h]
    have h1 : (⌊q⌋ : ℚ) ≤ q := Int.floor_le q
    have h2 : q - 1 < (⌊q⌋ : ℚ) := Int.sub_one_lt_floor q
    constructor <;> linarith
  · rw [if_neg h]
    have h1 : q ≤ (⌈q⌉ : ℚ) := Int.le_ceil q
    have h2 : (⌈q⌉ : ℚ) < q + 1 := Int.ceil_lt_add_one q
    constructor <;> linarith

/-- C4: for every flow rate `f` and every supported full-scale rating,
if the encoded code `int(16384 * (0.5 + 0.4 * (f / full_scale)))` lies in
the valid code range, then decoding it recovers `f` to within one LSB:
`|decode (encode f) - f| ≤ full_scale / (16384 * 0.4)`. -/
theorem encode_decode_round_trip (z : Zephyr) (f : ℚ)
    (hFS : z.FS_flow_rate ∈ SUPPORTED_FLOW_RANGE)
    (hlo : 0 ≤ z.convert_to_digital_output f)
    (hhi : z.convert_to_digital_output f < 16384) :
    |z.convert_to_flow_rate (z.convert_to_digital_output f) - f| ≤
      z.FS_flow_rate / (16384 * 0.4) := by
  have hpos : (0 : ℚ) < z.FS_flow_rate := by
    simp only [SUPPORTED_FLOW_RANGE, List.mem_cons, List.not_mem_nil, or_false] at hFS
    rcases hFS with h | h | h | h | h <;> rw [h] <;> norm_num
  have key : z.convert_to_flow_rate (z.convert_to_digital_output f) - f =
      z.FS_flow_rate / (16384 * 0.4) *
        (((z.convert_to_digital_output f : ℤ) : ℚ) -
          16384 * (0.5 + 0.4 * (f / z.FS_flow_rate))) := by
    rw [Zephyr.convert_to_flow_rate]
    field_simp
    ring
  have h2 : |((z.convert_to_digital_output f : ℤ) : ℚ) -
      16384 * (0.5 + 0.4 * (f / z.FS_flow_rate))| ≤ 1 := by
    rw [Zephyr.convert_to_digital_output]
    exact pyTrunc_sub_le _
  have hcoef : (0 : ℚ) < z.FS_flow_rate / (16384 * 0.4) := by positivity
  calc |z.convert_to_flow_rate (z.convert_to_digital_output f) - f| =
        z.FS_flow_rate / (16384 * 0.4) *
          |((z.convert_to_digital_output f : ℤ) : ℚ) -
            16384 * (0.5 + 0.4 * (f / z.FS_flow_rate))| := by
          rw [key, abs_mul, abs_of_pos hcoef]
    _ ≤ z.FS_flow_rate / (16384 * 0.4) * 1 :=
          mul_le_mul_of_nonneg_left h2 hcoef.le
    _ = z.FS_flow_rate / (16384 * 0.4) := mul_one _

/-- Witness for C4 at full scale 750 and zero flow: the encoded code is
8192, in range, and decoding recovers 0 within one LSB. -/
theorem encode_decode_round_trip_witness :
    |(Zephyr.mk 1 750 0x49 0 (1 / 1000)).convert_to_flow_rate
        ((Zephyr.mk 1 750 0x49 0 (1 / 1000)).convert_to_digital_output 0) - 0| ≤
      (Zephyr.mk 1 750 0x49 0 (1 / 1000)).FS_flow_rate / (16384 * 0.4) :=
  encode_decode_round_trip (Zephyr.mk 1 750 0x49 0 (1 / 1000)) 0
    (by norm_num [SUPPORTED_FLOW_RANGE])
    (by norm_num [Zephyr.convert_to_digital_output, pyTrunc])
    (by norm_num [Zephyr.convert_to_digital_output, pyTrunc])

/-- On a constant valid bus, the `read_average` loop collects `n + 1`
copies of the decoded value, caches it, and advances the transaction
counter by `n + 1`. -/
lemma read_loop_const (bus : ℕ → ℕ × ℕ) (b0 b1 : ℕ)
    (hbus : ∀ j, bus j = (b0, b1))
    (hvalid : (b0 <<< 8 ||| b1) &&& 0xc000 = 0) :
    ∀ n (z : Zephyr) (i : ℕ),
      Zephyr.read_loop z bus i (n + 1) =
        (.ok (List.replicate (n + 1) (z.convert_to_flow_rate ((b0 <<< 8 ||| b1 : ℕ) : ℤ))),
         { z with last_flow_rate := z.convert_to_flow_rate ((b0 <<< 8 ||| b1 : ℕ) : ℤ) },
         i + (n + 1)) := by
  intro n
  induction n with
  | zero =>
      intro z i
      simp [Zephyr.read_loop, Zephyr.read, Zephyr.read_digital_output, hbus,
        Zephyr.validate_data, hvalid]
  | succ m ih =>
      intro z i
      have hread : z.read bus i =
          (.ok (z.convert_to_flow_rate ((b0 <<< 8 ||| b1 : ℕ) : ℤ)),
           { z with last_flow_rate := z.convert_to_flow_rate ((b0 <<< 8 ||| b1 : ℕ) : ℤ) },
           i + 1) := by
        simp [Zephyr.read, Zephyr.read_digital_output, hbus, Zephyr.validate_data, hvalid]
      have hstep : Zephyr.read_loop z bus i (m + 1 + 1) =
          match z.read bus i with
          | (.error e, z1, j) => (.error e, z1, j)
          | (.ok f, z1, j) =>
              match Zephyr.read_loop z1 bus j (m + 1) with
              | (.error e, z2, k) => (.error e, z2, k)
              | (.ok fs, z2, k) => (.ok (f :: fs), z2, k) := rfl
      rw [hstep, hread]
      dsimp only
      rw [ih]
      simp [List.replicate_succ, Zephyr.convert_to_flow_rate]
      omega

/-- C6: for every positive `n`, when every bus transaction yields the same
valid raw block, `read_average(n)` returns exactly the single-sample decode
of that raw value (the arithmetic mean of `n` identical samples), and
exactly `n` scoped bus transactions are performed. -/
theorem read_average_constant (z : Zephyr) (bus : ℕ → ℕ × ℕ) (i n : ℕ) (b0 b1 : ℕ)
    (hn : 0 < n) (hbus : ∀ j, bus j = (b0, b1))
    (hvalid : (b0 <<< 8 ||| b1) &&& 0xc000 = 0) :
    z.read_average bus i n =
      (.ok (z.convert_to_flow_rate ((b0 <<< 8 ||| b1 : ℕ) : ℤ)),
       { z with last_flow_rate := z.convert_to_flow_rate ((b0 <<< 8 ||| b1 : ℕ) : ℤ) },
       i + n) := by
  obtain ⟨m, rfl⟩ : ∃ m, n = m + 1 := ⟨n - 1, by omega⟩
  rw [Zephyr.read_average, read_loop_const bus b0 b1 hbus hvalid m z i]
  have hsum : (List.replicate (m + 1)
      (z.convert_to_flow_rate ((b0 <<< 8 ||| b1 : ℕ) : ℤ))).sum =
      ((m + 1 : ℕ) : ℚ) * z.convert_to_flow_rate ((b0 <<< 8 ||| b1 : ℕ) : ℤ) := by
    rw [List.sum_replicate, nsmul_eq_mul]
  have hne : ((m + 1 : ℕ) : ℚ) ≠ 0 := by
    exact_mod_cast Nat.succ_ne_zero m
  simp only [hsum, pyDiv, if_neg hne, mul_div_cancel_left₀ _ hne]

/-- Witness for C6: three reads on a bus constantly answering
`(0x20, 0x00)` average to the single-sample decode of `0x2000` with
exactly three transactions. -/
theorem read_average_constant_witness :
    (Zephyr.mk 1 750 0x49 0 (1 / 1000)).read_average (fun _ => (0x20, 0x00)) 0 3 =
      (.ok ((Zephyr.mk 1 750 0x49 0 (1 / 1000)).convert_to_flow_rate
          ((0x20 <<< 8 ||| 0x00 : ℕ) : ℤ)),
       { Zephyr.mk 1 750 0x49 0 (1 / 1000) with
           last_flow_rate := (Zephyr.mk 1 750 0x49 0 (1 / 1000)).convert_to_flow_rate
             ((0x20 <<< 8 ||| 0x00 : ℕ) : ℤ) },
       0 + 3) :=
  read_average_constant (Zephyr.mk 1 750 0x49 0 (1 / 1000)) (fun _ => (0x20, 0x00)) 0 3
    0x20 0x00 (by norm_num) (fun _ => rfl) (by decide)

/-- If the first `k` transactions are valid and transaction `k` is invalid,
the `read_average` loop stops with the `InvalidSensorData` exception of
sample `k`, after exactly `k + 1` transactions. -/
lemma read_loop_first_invalid (bus : ℕ → ℕ × ℕ) :
    ∀ k (z : Zephyr) (i n : ℕ), k < n →
      (∀ j, j < k →
        Zephyr.validate_data ((bus (i + j)).1 <<< 8 ||| (bus (i + j)).2) = true) →
      Zephyr.validate_data ((bus (i + k)).1 <<< 8 ||| (bus (i + k)).2) = false →
      (Zephyr.read_loop z bus i n).1 =
          .error (.invalidSensorData ((bus (i + k)).1 <<< 8 ||| (bus (i + k)).2) 1) ∧
        (Zephyr.read_loop z bus i n).2.2 = i + k + 1 := by
  intro k
  induction k with
  | zero =>
      intro z i n hk hprev hbad
      obtain ⟨m, rfl⟩ : ∃ m, n = m + 1 := ⟨n - 1, by omega⟩
      rw [Nat.add_zero] at hbad
      have hread : z.read bus i =
          (.error (.invalidSensorData ((bus i).1 <<< 8 ||| (bus i).2) 1), z, i + 1) := by
        simp [Zephyr.read, Zephyr.read_digital_output, hbad]
      have hstep : Zephyr.read_loop z bus i (m + 1) =
          match z.read bus i with
          | (.error e, z1, j) => (.error e, z1, j)
          | (.ok f, z1, j) =>
              match Zephyr.read_loop z1 bus j m with
              | (.error e, z2, kk) => (.error e, z2, kk)
              | (.ok fs, z2, kk) => (.ok (f :: fs), z2, kk) := rfl
      rw [hstep, hread]
      simp
  | succ kk ih =>
      intro z i n hk hprev hbad
      obtain ⟨m, rfl⟩ : ∃ m, n = m + 1 := ⟨n - 1, by omega⟩
      have h0 : Zephyr.validate_data ((bus i).1 <<< 8 ||| (bus i).2) = true := by
        have h := hprev 0 (by omega)
        rw [Nat.add_zero] at h
        exact h
      have hread : z.read bus i =
          (.ok (z.convert_to_flow_rate (((bus i).1 <<< 8 ||| (bus i).2 : ℕ) : ℤ)),
           { z with last_flow_rate :=
               z.convert_to_flow_rate (((bus i).1 <<< 8 ||| (bus i).2 : ℕ) : ℤ) },
           i + 1) := by
        simp [Zephyr.read, Zephyr.read_digital_output, h0]
      have hprev2 : ∀ j, j < kk →
          Zephyr.validate_data ((bus (i + 1 + j)).1 <<< 8 ||| (bus (i + 1 + j)).2) = true := by
        intro j hj
        have h := hprev (j + 1) (by omega)
        rw [show i + (j + 1) = i + 1 + j by omega] at h
        exact h
      have hbad2 :
          Zephyr.validate_data ((bus (i + 1 + kk)).1 <<< 8 ||| (bus (i + 1 + kk)).2) = false := by
        rw [show i + 1 + kk = i + (kk + 1) by omega]
        exact hbad
      have hih := ih { z with last_flow_rate :=
          z.convert_to_flow_rate (((bus i).1 <<< 8 ||| (bus i).2 : ℕ) : ℤ) }
        (i + 1) m (by omega) hprev2 hbad2
      have hstep : Zephyr.read_loop z bus i (m + 1) =
          match z.read bus i with
          | (.error e, z1, j) => (.error e, z1, j)
          | (.ok f, z1, j) =>
              match Zephyr.read_loop z1 bus j m with
              | (.error e, z2, k2) => (.error e, z2, k2)
              | (.ok fs, z2, k2) => (.ok (f :: fs), z2, k2) := rfl
      rw [hstep, hread]
      dsimp only
      generalize hE : Zephyr.read_loop { z with last_flow_rate := z.convert_to_flow_rate (((bus i).1 <<< 8 ||| (bus i).2 : ℕ) : ℤ) } bus (i + 1) m = res
      rw [hE] at hih
      obtain ⟨r, z2, idx⟩ := res
      obtain ⟨h1, h2⟩ := hih
      dsimp only at h1 h2
      rw [h1]
      dsimp only
      constructor
      · rw [show i + 1 + kk = i + (kk + 1) by omega]
      · rw [h2]
        omega

/-- C7: for every positive `n`, if one of the `n` reads inside
`read_average(n)` is the first to fail with `InvalidSensorData`, then
`read_average` propagates that same exception immediately: the result is
that error (no partial or averaged result) and the transaction counter
shows the failing sample was not retried — exactly `k + 1` transactions
happened when sample `k` (zero-based) is the first invalid one. -/
theorem read_average_propagates_invalid (z : Zephyr) (bus : ℕ → ℕ × ℕ) (i n k : ℕ)
    (hk : k < n)
    (hprev : ∀ j, j < k →
      Zephyr.validate_data ((bus (i + j)).1 <<< 8 ||| (bus (i + j)).2) = true)
    (hbad : Zephyr.validate_data ((bus (i + k)).1 <<< 8 ||| (bus (i + k)).2) = false) :
    (z.read_average bus i n).1 =
        .error (.invalidSensorData ((bus (i + k)).1 <<< 8 ||| (bus (i + k)).2) 1) ∧
      (z.read_average bus i n).2.2 = i + k + 1 := by
  have h := read_loop_first_invalid bus k z i n hk hprev hbad
  rw [Zephyr.read_average]
  rcases hE : Zephyr.read_loop z bus i n with ⟨r, z2, idx⟩
  rw [hE] at h
  obtain ⟨h1, h2⟩ := h
  dsimp only at h1 h2
  rw [h1]
  dsimp only
  exact ⟨rfl, h2⟩

/-- Witness for C7: with the second transaction (sample index 1) returning
the invalid block `(0x80, 0x00)`, `read_average(3)` propagates
`InvalidSensorData 0x8000` after exactly 2 transactions. -/
theorem read_average_propagates_invalid_witness :
    ((Zephyr.mk 1 750 0x49 0 (1 / 1000)).read_average
        (fun j => if j = 0 then (0x20, 0x00) else (0x80, 0x00)) 0 3).1 =
        .error (.invalidSensorData 0x8000 1) ∧
      ((Zephyr.mk 1 750 0x49 0 (1 / 1000)).read_average
        (fun j => if j = 0 then (0x20, 0x00) else (0x80, 0x00)) 0 3).2.2 = 2 := by
  have h := read_average_propagates_invalid (Zephyr.mk 1 750 0x49 0 (1 / 1000))
    (fun j => if j = 0 then (0x20, 0x00) else (0x80, 0x00)) 0 3 1
    (by omega)
    (by
      intro j hj
      have hj0 : j = 0 := by omega
      rw [hj0]
      decide)
    (by decide)
  simpa using h

end ZephyrHAF
